import Mathlib

/-!
# Verification of the player module (`src/data/components/player.py`)

A shallow embedding of the player animation-compositing and state-machine
code of `data/components/player.py`, together with proofs of the stated
properties.

Conventions of the embedding:
* pygame surfaces are an abstract type `Image`; the pixel-level operations
  used by the code (`blit`, `convert(8)`, `get_palette`, `set_palette`,
  `set_colorkey`, surface creation + `fill`) are bundled as an abstract
  `SurfaceOps` record, so every theorem holds for any pixel semantics.
* Python strings used as finite enumerations (`"front"`, `"normal"`,
  slot names) become inductive types.
* Python's duck-typed "image or (idle, action) pair" per-direction entry
  becomes the tagged `ImageEntry`; `try: to_blit[frame] except TypeError`
  becomes the total function `indexEntry`.
* Equipment items come from `equips.make_all_equips()` (outside `src/`);
  they are consumed through the record `Item`, holding the fields the
  player code reads: `images` (keyed by direction or `right_with_shield`)
  and `attack_images` (the `"normal"` marker, a distinct set, or `None`).
* `tools.Anim` is not under `src/`; it is modelled from the spec (see
  `Anim` below).
* Mutation of `self` becomes state passing: each method returns the new
  `Player`.
-/

/-- The four facing directions (`prepare.DIRECTIONS`). -/
inductive Direction
  | front
  | back
  | left
  | right
deriving DecidableEq, Repr

/-- The five equipment slots. -/
inductive Slot
  | head
  | body
  | weapon
  | armleg
  | shield
deriving DecidableEq, Repr

/-- Embedding of `action_state` values: the strings `"normal"` and `"attack"`. -/
inductive ActionState
  | normal
  | attack
deriving DecidableEq, Repr

/-- Keys of an item's `images` dict: the four direction strings plus the
special key `"right_with_shield"` used by the armleg item. -/
inductive ImageKey
  | dir (d : Direction)
  | right_with_shield
deriving DecidableEq, Repr

/-- A per-direction entry of an item's image dict: either a single image
(used for both animation frames) or an (idle, action) pair. -/
inductive ImageEntry (Image : Type)
  | single (img : Image)
  | pair (idle action : Image)
deriving DecidableEq, Repr

/-- The `attack_images` attribute of an item: the string marker
`"normal"` (reuse normal images), a distinct image dict, or `None`. -/
inductive AttackImages (Image : Type)
  | normalMarker
  | imageSet (s : ImageKey → ImageEntry Image)
  | null

/-- An equipped item, seen through the attributes the player code reads. -/
structure Item (Image : Type) where
  images : ImageKey → ImageEntry Image
  attack_images : AttackImages Image

/-- Embedding of `self.equipped`: at most one item per slot (`None` = slot empty). -/
def Equipped (Image : Type) : Type := Slot → Option (Item Image)

/-- An 8-bit RGB palette color (`image.get_palette()` entry). -/
structure Color where
  r : Nat
  g : Nat
  b : Nat
deriving DecidableEq, Repr

/-- Embedding of `color[i]` on a palette color: channel 0 = red, 1 = green, 2 = blue. -/
def Color.getCh (c : Color) (i : Nat) : Nat :=
  if i = 0 then c.r else if i = 1 then c.g else c.b

/-- Embedding of `color[i] = v` on a palette color. -/
def Color.setCh (c : Color) (i : Nat) (v : Nat) : Color :=
  if i = 0 then { c with r := v }
  else if i = 1 then { c with g := v }
  else { c with b := v }

/-- Embedding of `to_blit[frame]` guarded by `except TypeError: return to_blit`
(lines 98-101 / 112-115): a pair is indexed by the frame number, a
single image is returned for either frame index. -/
def indexEntry {Image : Type} (e : ImageEntry Image) (frame : Fin 2) : Image :=
  match e with
  | .single img => img
  | .pair idle action => if frame.val = 0 then idle else action

/-- Embedding of `get_part_image` (player.py lines 92-101).  The caller's guard
`if self.equipped[part]:` (line 57) is folded in: an empty slot yields
`none` and nothing is blitted, exactly as at the call site. -/
def get_part_image {Image : Type} (equipped : Equipped Image)
    (direction : Direction) (part : Slot) (frame : Fin 2) : Option Image :=
  match equipped part with
  | Option.none => Option.none
  | some item =>
    let to_blit :=
      if part = Slot.armleg ∧ direction = Direction.right ∧
          (equipped Slot.shield).isSome = true then
        item.images ImageKey.right_with_shield
      else
        item.images (ImageKey.dir direction)
    some (indexEntry to_blit frame)

/-- Embedding of `get_attack_part_image` (player.py lines 103-115), with the same
folded-in call-site guard for an empty slot. -/
def get_attack_part_image {Image : Type} (equipped : Equipped Image)
    (direction : Direction) (part : Slot) (frame : Fin 2) : Option Image :=
  match equipped part with
  | Option.none => Option.none
  | some item =>
    match item.attack_images with
    | AttackImages.normalMarker =>
      some (indexEntry (item.images (ImageKey.dir direction)) frame)
    | AttackImages.imageSet s =>
      some (indexEntry (s (ImageKey.dir direction)) frame)
    | AttackImages.null => Option.none

/-- Embedding of `STANDARD_ANIMATION_FPS = 7.0` (player.py line 22). -/
def STANDARD_ANIMATION_FPS : ℚ := 7

/-- Embedding of `HIT_ANIMATION_FPS = 20.0` (player.py line 23). -/
def HIT_ANIMATION_FPS : ℚ := 20

/-- Embedding of `DRAW_ORDER` (player.py lines 12-15): per-direction slot z-order for
normal-mode composition, back-to-front. -/
def DRAW_ORDER : Direction → List Slot
  | .front => [.body, .head, .weapon, .armleg, .shield]
  | .back  => [.shield, .armleg, .weapon, .body, .head]
  | .left  => [.shield, .body, .head, .weapon, .armleg]
  | .right => [.weapon, .body, .head, .armleg, .shield]

/-- Embedding of `DRAW_ATTACK_ORDER` (player.py lines 17-20). -/
def DRAW_ATTACK_ORDER : Direction → List Slot
  | .front => [.shield, .body, .head, .weapon, .armleg]
  | .back  => [.armleg, .weapon, .body, .head, .shield]
  | .left  => [.shield, .body, .head, .weapon, .armleg]
  | .right => [.weapon, .body, .head, .armleg, .shield]

/-- Modelled from the spec: `tools.Anim` (the Animation Clip) is not under
`src/`.  Spec section 3: an ordered sequence of frames, a playback rate
(frames/second), a loop-count (finite or unbounded), and internal state:
elapsed accumulation (`timer`), current frame index, done flag.
`loops = none` models the unbounded default. -/
structure Anim (Image : Type) where
  frames : List Image
  fps : ℚ
  loops : Option Nat
  frame : Nat
  timer : Option ℚ
  loopCount : Nat
  done : Bool

/-- Embedding of `tools.Anim(frames, fps)`: a fresh unbounded clip at frame 0. -/
def Anim.mkLooping {Image : Type} (frames : List Image) (fps : ℚ) :
    Anim Image :=
  ⟨frames, fps, Option.none, 0, Option.none, 0, false⟩

/-- Embedding of `tools.Anim(frames, fps, loops=n)`: a fresh clip with a finite loop
budget of `n` repetitions. -/
def Anim.mkFinite {Image : Type} (frames : List Image) (fps : ℚ)
    (loops : Nat) : Anim Image :=
  ⟨frames, fps, some loops, 0, Option.none, 0, false⟩

/-- Modelled from the spec: `get_next_frame(now)` produces the frame to
display for the given time and the advanced clip state.  On the first
query the elapsed accumulator starts at `now`; once more than one frame
period (1000/fps milliseconds) has accumulated, the clip steps to the
next frame index (wrapping), counts a completed loop on wrap, and a
finite-loop clip whose budget is exhausted sets `done`; `done` is never
cleared here (it remains true until an explicit `reset`). -/
def Anim.get_next_frame {Image : Type} (a : Anim Image) (now : ℚ) :
    Option Image × Anim Image :=
  let timer := match a.timer with
    | some t => t
    | Option.none => now
  if 1000 / a.fps < now - timer then
    let frame := (a.frame + 1) % a.frames.length
    let loopCount := if frame = 0 then a.loopCount + 1 else a.loopCount
    let done := a.done || (decide (frame = 0) &&
      (match a.loops with
       | some l => decide (l ≤ loopCount)
       | Option.none => false))
    (a.frames.get? frame,
     { a with frame := frame, timer := some now,
              loopCount := loopCount, done := done })
  else
    (a.frames.get? a.frame, { a with timer := some timer })

/-- Modelled from the spec: `reset()` rewinds to frame 0, restores the
loop counter and clears the done flag and elapsed accumulation. -/
def Anim.reset {Image : Type} (a : Anim Image) : Anim Image :=
  { a with frame := 0, timer := Option.none, loopCount := 0, done := false }

/-- The pygame surface operations used by the player code, kept abstract:
`newFilled c` is `pg.Surface(prepare.CELL_SIZE)` followed by `fill(c)`;
`blit dst src` is `dst.blit(src, (0,0))`; `convert8` is `convert(8)`
(reduction to a 256-color palette); the palette accessors are
`get_palette` / `set_palette`; `set_colorkey` marks a color transparent. -/
structure SurfaceOps (Image : Type) where
  newFilled : Color → Image
  blit : Image → Image → Image
  convert8 : Image → Image
  get_palette : Image → List Color
  set_palette : Image → List Color → Image
  set_colorkey : Image → Color → Image

/-- The per-frame body of `make_hit_images` (player.py lines 78-88) for
enumerated frame index `i`: fill a fresh surface with (85,0,85), blit the
composited frame, reduce to 8-bit, then
`index, colorkey = (0, (235,0,85)) if i else (2, (85,0,235))` and boost
palette channel `index` by 150 clamped at 255, finally set the colorkey. -/
def make_hit_frame {Image : Type} (ops : SurfaceOps Image) (i : Nat)
    (frame : Image) : Image :=
  let image := ops.blit (ops.newFilled ⟨85, 0, 85⟩) frame
  let image := ops.convert8 image
  let palette := ops.get_palette image
  let ic : Nat × Color :=
    if i ≠ 0 then (0, ⟨235, 0, 85⟩) else (2, ⟨85, 0, 235⟩)
  let palette := palette.map
    (fun color => color.setCh ic.1 (min (color.getCh ic.1 + 150) 255))
  let image := ops.set_palette image palette
  ops.set_colorkey image ic.2

/-- Embedding of `for i,frame in enumerate(...)` (player.py line 77): map a function
over a list together with the running index starting at `start`. -/
def enumMap {α β : Type} (f : Nat → α → β) : Nat → List α → List β
  | _, [] => []
  | start, a :: as => f start a :: enumMap f (start + 1) as

/-- Embedding of `make_hit_images` (player.py lines 69-90): for each direction, derive
the strobing hit frames from the given clip's frames and wrap them in an
`Anim` at `HIT_ANIMATION_FPS` with `loops=10`. -/
def make_hit_images {Image : Type} (ops : SurfaceOps Image)
    (from_dict : Direction → Anim Image) : Direction → Anim Image :=
  fun direction =>
    Anim.mkFinite (enumMap (make_hit_frame ops) 0 (from_dict direction).frames)
      HIT_ANIMATION_FPS 10

/-- The inner loop of `make_images` (player.py lines 55-64): starting
from the color-keyed base canvas, blit each equipped part's resolved
image (skipping empty results) in z-order. -/
def composite_frame {Image : Type} (ops : SurfaceOps Image) (base : Image)
    (get_part : Direction → Slot → Fin 2 → Option Image)
    (order : List Slot) (direction : Direction) (frame : Fin 2) : Image :=
  order.foldl
    (fun image part =>
      match get_part direction part frame with
      | some blitting => ops.blit image blitting
      | Option.none => image)
    base

/-- Embedding of `make_images` (player.py lines 46-67): two composited frames per
direction, wrapped in an unbounded `Anim` at `STANDARD_ANIMATION_FPS`.
The base canvas (a `CELL_SIZE` surface filled with the colorkey color) is
passed in as `base`; `attack` selects the resolver exactly as lines
58-61 do. -/
def make_images {Image : Type} (ops : SurfaceOps Image) (base : Image)
    (equipped : Equipped Image) (attack : Bool)
    (order : Direction → List Slot) : Direction → Anim Image :=
  fun direction =>
    let get_part := if attack then get_attack_part_image equipped
      else get_part_image equipped
    Anim.mkLooping
      [composite_frame ops base get_part (order direction) direction 0,
       composite_frame ops base get_part (order direction) direction 1]
      STANDARD_ANIMATION_FPS

/-- Embedding of `make_all_animations` (player.py lines 32-44) as a function of the
`hit_state` index (the Python list index 0/1) and the action key. -/
def make_all_animations {Image : Type} (ops : SurfaceOps Image)
    (base : Image) (equipped : Equipped Image) :
    Bool → ActionState → Direction → Anim Image :=
  fun hit action =>
    let standard : ActionState → Direction → Anim Image := fun a =>
      match a with
      | ActionState.normal => make_images ops base equipped false DRAW_ORDER
      | ActionState.attack =>
        make_images ops base equipped true DRAW_ATTACK_ORDER
    match hit with
    | false => standard action
    | true => make_hit_images ops (standard action)

/-- pygame key code `K_UP` (273). -/
def K_UP : Nat := 273

/-- pygame key code `K_DOWN` (274). -/
def K_DOWN : Nat := 274

/-- pygame key code `K_RIGHT` (275). -/
def K_RIGHT : Nat := 275

/-- pygame key code `K_LEFT` (276). -/
def K_LEFT : Nat := 276

/-- Embedding of `set_controls` (player.py lines 147-157): the hardcoded key-direction
dict, as a partial lookup (unbound keys map to nothing). -/
def set_controls : Nat → Option Direction := fun key =>
  if key = K_DOWN then some Direction.front
  else if key = K_UP then some Direction.back
  else if key = K_LEFT then some Direction.left
  else if key = K_RIGHT then some Direction.right
  else Option.none

/-- The player's mutable state (player.py `__init__`, lines 120-138),
restricted to the fields the verified methods read or write.  The pygame
`rect`, collision `mask` and `shadow` sprite, and the `inventory` dict
are omitted: no verified method touches them.  `weapon_attacking` stands
for `self.equipped["weapon"].attacking`, the flag of the external weapon
item; `all_animations` is the animation table, indexed like the Python
list-of-dicts `self.all_animations[hit_state][action_state][direction]`;
positions are exact (sub-pixel) coordinates. -/
structure Player (Image : Type) where
  exact_position : ℚ × ℚ
  old_position : ℚ × ℚ
  speed : ℚ
  direction : Direction
  direction_stack : List Direction
  controls : Nat → Option Direction
  all_animations : Bool → ActionState → Direction → Anim Image
  image : Option Image
  action_state : ActionState
  hit_state : Bool
  redraw : Bool
  health : ℤ
  weapon_attacking : Bool

/-- Embedding of `Player.__init__` (player.py lines 120-138) over a prebuilt animation
table and the external weapon's `attacking` flag: empty direction stack,
hardcoded controls, no image yet, `normal` action state, not hit, redraw
forced, health 28. -/
def player_init {Image : Type}
    (animations : Bool → ActionState → Direction → Anim Image)
    (weapon_attacking : Bool) (position : ℚ × ℚ) (speed : ℚ)
    (direction : Direction) : Player Image :=
  { exact_position := position
    old_position := position
    speed := speed
    direction := direction
    direction_stack := []
    controls := set_controls
    all_animations := animations
    image := Option.none
    action_state := ActionState.normal
    hit_state := false
    redraw := true
    health := 28
    weapon_attacking := weapon_attacking }

/-- Point update of the animation table at one (hit, action, direction)
key: the in-place mutation of the `Anim` object stored there. -/
def updateAnim {Image : Type}
    (t : Bool → ActionState → Direction → Anim Image) (h : Bool)
    (a : ActionState) (d : Direction) (v : Anim Image) :
    Bool → ActionState → Direction → Anim Image :=
  fun h' a' d' => if h' = h ∧ a' = a ∧ d' = d then v else t h' a' d'

/-- Embedding of `add_direction` (player.py lines 181-187): for a bound key, remove
the first occurrence of its direction from the stack if present
(`list.remove`, = `List.erase`) and append it on top; unbound keys do
nothing. -/
def add_direction {Image : Type} (p : Player Image) (key : Nat) :
    Player Image :=
  match p.controls key with
  | some direction =>
    { p with direction_stack := p.direction_stack.erase direction ++ [direction] }
  | Option.none => p

/-- Embedding of `pop_direction` (player.py lines 189-194): for a bound key, remove
its direction from the stack if present; otherwise do nothing. -/
def pop_direction {Image : Type} (p : Player Image) (key : Nat) :
    Player Image :=
  match p.controls key with
  | some direction =>
    { p with direction_stack := p.direction_stack.erase direction }
  | Option.none => p

/-- Embedding of `got_hit` (player.py lines 201-206): outside hit state, set health to
`min(health - enemy_damage, 0)` and enter hit state; inside hit state do
nothing. -/
def got_hit {Image : Type} (p : Player Image) (enemy_damage : ℤ) :
    Player Image :=
  if !p.hit_state then
    { p with health := min (p.health - enemy_damage) 0, hit_state := true }
  else p

/-- Embedding of `adjust_frames` (player.py lines 171-179): take the facing direction
from the top of the direction stack when it is non-empty; look up the
clip for `(hit_state, action_state, direction)`; advance it and store its
frame as the sprite image when the stack is non-empty, the player is in
hit state, or a redraw is flagged; always clear the redraw flag. -/
def adjust_frames {Image : Type} (p : Player Image) (now : ℚ) :
    Player Image :=
  let direction := match p.direction_stack.getLast? with
    | some d => d
    | Option.none => p.direction
  let animation := p.all_animations p.hit_state p.action_state direction
  if p.direction_stack ≠ [] ∨ p.hit_state = true ∨ p.redraw = true then
    let r := animation.get_next_frame now
    { p with direction := direction
             image := r.1
             all_animations :=
               updateAnim p.all_animations p.hit_state p.action_state
                 direction r.2
             redraw := false }
  else
    { p with direction := direction, redraw := false }

/-- Embedding of `check_states` (player.py lines 215-227): leave attack state as soon
as the weapon is no longer attacking (forcing a redraw); in hit state,
look up the strobing clip for the (possibly just reverted) action state
and current direction, and when it is done reset it and leave hit state;
any tick spent in hit state forces a redraw. -/
def check_states {Image : Type} (p : Player Image) : Player Image :=
  let p1 :=
    if p.action_state = ActionState.attack ∧ p.weapon_attacking = false then
      { p with action_state := ActionState.normal, redraw := true }
    else p
  if p1.hit_state = true then
    let animation := p1.all_animations p1.hit_state p1.action_state p1.direction
    let p2 :=
      if animation.done then
        { p1 with all_animations :=
                    updateAnim p1.all_animations p1.hit_state p1.action_state
                      p1.direction animation.reset
                  hit_state := false }
      else p1
    { p2 with redraw := true }
  else p1

/-- One keyboard event fed to the direction-stack handlers. -/
inductive KeyEvent
  | press (key : Nat)
  | release (key : Nat)

/-- Dispatch one keyboard event to `add_direction` / `pop_direction`. -/
def apply_key {Image : Type} (p : Player Image) : KeyEvent → Player Image
  | .press k => add_direction p k
  | .release k => pop_direction p k

/-- Run a sequence of keyboard events through the direction-stack
handlers. -/
def run_keys {Image : Type} (p : Player Image) : List KeyEvent → Player Image
  | [] => p
  | e :: es => run_keys (apply_key p e) es

/-- The `to_blit` image set selected by `get_part_image`
(player.py lines 94-97). -/
def normal_to_blit {Image : Type} (equipped : Equipped Image)
    (item : Item Image) (direction : Direction) (part : Slot) :
    ImageEntry Image :=
  if part = Slot.armleg ∧ direction = Direction.right ∧
      (equipped Slot.shield).isSome = true then
    item.images ImageKey.right_with_shield
  else
    item.images (ImageKey.dir direction)

/-- The `piece` image dict selected by `get_attack_part_image`
(player.py lines 105-110); `none` when the item has no attack variant. -/
def attack_piece {Image : Type} (item : Item Image) :
    Option (ImageKey → ImageEntry Image) :=
  match item.attack_images with
  | AttackImages.normalMarker => some item.images
  | AttackImages.imageSet s => some s
  | AttackImages.null => Option.none

/-- A concrete animation table over `Image := Nat` for concrete runs. -/
def testAnimTable : Bool → ActionState → Direction → Anim Nat :=
  fun _ _ _ => Anim.mkLooping [0, 1] STANDARD_ANIMATION_FPS

/-- A freshly constructed player over `Image := Nat`. -/
def testPlayer : Player Nat :=
  player_init testAnimTable false (0, 0) 180 Direction.back

/-- C1: `got_hit(d)` outside hit state sets health to
`min(health - d, 0)` and enters hit state; inside hit state it changes
neither health nor hit state (re-entrant hits are ignored). -/
theorem got_hit_spec {Image : Type} (p : Player Image) (d : ℤ) :
    (p.hit_state = false →
      (got_hit p d).health = min (p.health - d) 0 ∧
      (got_hit p d).hit_state = true) ∧
    (p.hit_state = true →
      (got_hit p d).health = p.health ∧
      (got_hit p d).hit_state = p.hit_state) := by
  constructor <;> intro h <;> simp [got_hit, h]

/-- Witness for C1: a fresh player (hit_state false, health 28) hit for
5 damage ends at health `min (28 - 5) 0 = 0` in hit state. -/
theorem got_hit_spec_witness :
    testPlayer.hit_state = false ∧
    (got_hit testPlayer 5).health = min (testPlayer.health - 5) 0 ∧
    (got_hit testPlayer 5).hit_state = true :=
  ⟨rfl, (got_hit_spec testPlayer 5).1 rfl⟩

/-- C10: a key code outside the four bound direction keys leaves the
whole player state unchanged under both `add_direction` and
`pop_direction`. -/
theorem unbound_key_noop {Image : Type} (p : Player Image) (key : Nat)
    (hc : p.controls = set_controls) (h1 : key ≠ K_DOWN) (h2 : key ≠ K_UP)
    (h3 : key ≠ K_LEFT) (h4 : key ≠ K_RIGHT) :
    add_direction p key = p ∧ pop_direction p key = p := by
  have hnone : p.controls key = Option.none := by
    simp [hc, set_controls, h1, h2, h3, h4]
  constructor <;> simp [add_direction, pop_direction, hnone]

/-- Witness for C10: key code 32 (space) is not bound and does nothing. -/
theorem unbound_key_noop_witness :
    add_direction testPlayer 32 = testPlayer ∧
    pop_direction testPlayer 32 = testPlayer :=
  unbound_key_noop testPlayer 32 rfl (by decide) (by decide) (by decide)
    (by decide)

/-- Helper: `add_direction` preserves a duplicate-free direction stack. -/
theorem add_direction_stack_nodup {Image : Type} (p : Player Image)
    (key : Nat) (h : p.direction_stack.Nodup) :
    (add_direction p key).direction_stack.Nodup := by
  unfold add_direction
  cases hc : p.controls key with
  | none => exact h
  | some d =>
    refine (h.erase d).append (List.nodup_singleton d) ?_
    intro x hx hx2
    simp at hx2
    subst hx2
    exact h.not_mem_erase hx

/-- Helper: `pop_direction` preserves a duplicate-free direction stack. -/
theorem pop_direction_stack_nodup {Image : Type} (p : Player Image)
    (key : Nat) (h : p.direction_stack.Nodup) :
    (pop_direction p key).direction_stack.Nodup := by
  unfold pop_direction
  cases hc : p.controls key with
  | none => exact h
  | some d => exact h.erase d

/-- Helper: running any event sequence from a duplicate-free stack keeps
it duplicate-free. -/
theorem run_keys_stack_nodup {Image : Type} :
    ∀ (es : List KeyEvent) (p : Player Image),
      p.direction_stack.Nodup → (run_keys p es).direction_stack.Nodup := by
  intro es
  induction es with
  | nil => intro p h; exact h
  | cons e es ih =>
    intro p h
    cases e with
    | press k => exact ih _ (add_direction_stack_nodup p k h)
    | release k => exact ih _ (pop_direction_stack_nodup p k h)

/-- C4: for a bound key, `add_direction` removes any existing occurrence
of its direction and appends it on top (so the most recent held
direction is last and, from a duplicate-free stack, every reachable
stack stays duplicate-free); `pop_direction` removes the direction if
present and is a no-op if absent; pressing A, B, A leaves A on top, and
then releasing A leaves B on top (A = up/back, B = right). -/
theorem direction_stack_spec {Image : Type} (p : Player Image) (key : Nat) :
    (∀ d, p.controls key = some d →
      (add_direction p key).direction_stack
          = p.direction_stack.erase d ++ [d] ∧
      (add_direction p key).direction_stack.getLast? = some d ∧
      (pop_direction p key).direction_stack = p.direction_stack.erase d ∧
      (d ∉ p.direction_stack →
        (pop_direction p key).direction_stack = p.direction_stack)) ∧
    (∀ es : List KeyEvent, p.direction_stack.Nodup →
      (run_keys p es).direction_stack.Nodup) ∧
    (run_keys testPlayer
        [KeyEvent.press K_UP, KeyEvent.press K_RIGHT, KeyEvent.press K_UP]
      ).direction_stack.getLast? = some Direction.back ∧
    (run_keys testPlayer
        [KeyEvent.press K_UP, KeyEvent.press K_RIGHT, KeyEvent.press K_UP,
         KeyEvent.release K_UP]).direction_stack.getLast?
      = some Direction.right := by
  refine ⟨fun d hd => ?_, fun es h => run_keys_stack_nodup es p h,
    by decide, by decide⟩
  refine ⟨?_, ?_, ?_, fun hnot => ?_⟩ <;>
    simp [add_direction, pop_direction, hd, List.erase_of_not_mem, *]

/-- Witness for C4: pressing up on a fresh player (empty stack) puts
`back` on top of the stack. -/
theorem direction_stack_spec_witness :
    testPlayer.controls K_UP = some Direction.back ∧
    (add_direction testPlayer K_UP).direction_stack
        = testPlayer.direction_stack.erase Direction.back
            ++ [Direction.back] ∧
    (add_direction testPlayer K_UP).direction_stack.getLast?
        = some Direction.back :=
  ⟨by decide,
   ((direction_stack_spec testPlayer K_UP).1 Direction.back (by decide)).1,
   ((direction_stack_spec testPlayer K_UP).1 Direction.back (by decide)).2.1⟩

/-- A player frozen mid-attack (for concrete state-machine runs). -/
def testAttackPlayer : Player Nat :=
  { testPlayer with action_state := ActionState.attack }

/-- C5: when `action_state` is attack and the weapon's `attacking` flag
is false, `check_states` reverts `action_state` to normal and sets the
redraw flag. -/
theorem attack_to_normal {Image : Type} (p : Player Image)
    (ha : p.action_state = ActionState.attack)
    (hw : p.weapon_attacking = false) :
    (check_states p).action_state = ActionState.normal ∧
    (check_states p).redraw = true := by
  unfold check_states
  simp only [ha, hw, and_self, if_true, if_pos]
  split
  · split <;> simp
  · simp

/-- Witness for C5: a player mid-attack whose weapon has stopped
attacking is back to normal with a forced redraw after `check_states`. -/
theorem attack_to_normal_witness :
    testAttackPlayer.action_state = ActionState.attack ∧
    testAttackPlayer.weapon_attacking = false ∧
    (check_states testAttackPlayer).action_state = ActionState.normal ∧
    (check_states testAttackPlayer).redraw = true :=
  ⟨rfl, rfl, (attack_to_normal testAttackPlayer rfl rfl).1,
    (attack_to_normal testAttackPlayer rfl rfl).2⟩

/-- C6: `adjust_frames` looks up the clip for `(hit_state, action_state,
current direction)` — the direction being the stack top when the stack
is non-empty — and advances it at time `now`, storing its frame as the
sprite image, exactly when the stack is non-empty or the player is in
hit state or a redraw is flagged; otherwise image and animation table
are untouched; the redraw flag is cleared in all cases. -/
theorem adjust_frames_spec {Image : Type} (p : Player Image) (now : ℚ) :
    let d := match p.direction_stack.getLast? with
      | some x => x
      | Option.none => p.direction
    let animation := p.all_animations p.hit_state p.action_state d
    ((p.direction_stack ≠ [] ∨ p.hit_state = true ∨ p.redraw = true) →
      (adjust_frames p now).image = (animation.get_next_frame now).1 ∧
      (adjust_frames p now).direction = d ∧
      (adjust_frames p now).all_animations
        = updateAnim p.all_animations p.hit_state p.action_state d
            (animation.get_next_frame now).2) ∧
    (¬(p.direction_stack ≠ [] ∨ p.hit_state = true ∨ p.redraw = true) →
      (adjust_frames p now).image = p.image ∧
      (adjust_frames p now).direction = d ∧
      (adjust_frames p now).all_animations = p.all_animations) ∧
    (adjust_frames p now).redraw = false := by
  intro d animation
  unfold adjust_frames
  by_cases h : p.direction_stack ≠ [] ∨ p.hit_state = true ∨ p.redraw = true
  · simp [h]
  · simp [h]

/-- Witness for C6: a fresh player has the redraw flag set, so its first
`adjust_frames` call queries the looked-up clip and clears the flag. -/
theorem adjust_frames_spec_witness :
    (testPlayer.direction_stack ≠ [] ∨ testPlayer.hit_state = true ∨
      testPlayer.redraw = true) ∧
    (adjust_frames testPlayer 0).image
      = ((testPlayer.all_animations false ActionState.normal
            Direction.back).get_next_frame 0).1 ∧
    (adjust_frames testPlayer 0).redraw = false := by
  obtain ⟨h1, h2, h3⟩ := adjust_frames_spec testPlayer 0
  exact ⟨Or.inr (Or.inr rfl), (h1 (Or.inr (Or.inr rfl))).1, h3⟩

/-- Helper: for an occupied slot, `get_part_image` indexes the image set
selected by lines 94-97. -/
theorem get_part_image_eq {Image : Type} (equipped : Equipped Image)
    (item : Item Image) (direction : Direction) (part : Slot)
    (frame : Fin 2) (h : equipped part = some item) :
    get_part_image equipped direction part frame
      = some (indexEntry (normal_to_blit equipped item direction part)
          frame) := by
  simp [get_part_image, normal_to_blit, h]

/-- Helper: for an occupied slot, `get_attack_part_image` indexes the
direction-keyed entry of the piece selected by lines 105-110, and yields
nothing when there is no such piece. -/
theorem get_attack_part_image_eq {Image : Type} (equipped : Equipped Image)
    (item : Item Image) (direction : Direction) (part : Slot)
    (frame : Fin 2) (h : equipped part = some item) :
    get_attack_part_image equipped direction part frame
      = (attack_piece item).map
          (fun s => indexEntry (s (ImageKey.dir direction)) frame) := by
  cases hm : item.attack_images <;>
    simp [get_attack_part_image, attack_piece, h, hm]

/-- The armleg item of the concrete equipment set: distinguishable
normal-right (1) and right-with-shield (2) images, reusing normal images
during attack. -/
def armlegItem : Item Nat :=
  { images := fun k =>
      match k with
      | ImageKey.right_with_shield => ImageEntry.single 2
      | ImageKey.dir _ => ImageEntry.single 1
    attack_images := AttackImages.normalMarker }

/-- The shield item of the concrete equipment set: an (idle, action)
pair, no attack variant. -/
def shieldItem : Item Nat :=
  { images := fun _ => ImageEntry.pair 3 4
    attack_images := AttackImages.null }

/-- The weapon item of the concrete equipment set: a distinct attack
image set. -/
def weaponItem : Item Nat :=
  { images := fun _ => ImageEntry.pair 5 6
    attack_images := AttackImages.imageSet (fun _ => ImageEntry.single 7) }

/-- A concrete equipment configuration over `Image := Nat`. -/
def testEquipped : Equipped Nat := fun s =>
  match s with
  | Slot.armleg => some armlegItem
  | Slot.shield => some shieldItem
  | Slot.weapon => some weaponItem
  | _ => Option.none

/-- C7: attack-mode part resolution returns the normal per-direction
image (indexed the same way) under the `"normal"` marker, indexes a
distinct attack-image set the same way when one exists, and returns
nothing — without raising — when the item has no attack variant. -/
theorem attack_part_resolution {Image : Type} (equipped : Equipped Image)
    (item : Item Image) (direction : Direction) (part : Slot)
    (frame : Fin 2) (h : equipped part = some item) :
    (item.attack_images = AttackImages.normalMarker →
      get_attack_part_image equipped direction part frame
        = some (indexEntry (item.images (ImageKey.dir direction)) frame)) ∧
    (∀ s, item.attack_images = AttackImages.imageSet s →
      get_attack_part_image equipped direction part frame
        = some (indexEntry (s (ImageKey.dir direction)) frame)) ∧
    (item.attack_images = AttackImages.null →
      get_attack_part_image equipped direction part frame
        = Option.none) := by
  refine ⟨fun hm => ?_, fun s hm => ?_, fun hm => ?_⟩ <;>
    simp [get_attack_part_image, h, hm]

/-- Witness for C7: the concrete weapon resolves to its attack set, the
shield (no attack variant) resolves to nothing. -/
theorem attack_part_resolution_witness :
    testEquipped Slot.weapon = some weaponItem ∧
    get_attack_part_image testEquipped Direction.left Slot.weapon 0
      = some 7 ∧
    testEquipped Slot.shield = some shieldItem ∧
    get_attack_part_image testEquipped Direction.left Slot.shield 0
      = Option.none :=
  ⟨rfl,
   (attack_part_resolution testEquipped weaponItem Direction.left
      Slot.weapon 0 rfl).2.1 _ rfl,
   rfl,
   (attack_part_resolution testEquipped shieldItem Direction.left
      Slot.shield 0 rfl).2.2 rfl⟩

/-- C8: when the resolved image set is an (idle, action) pair, part
resolution returns the element at the frame index; when it is a single
image, both frame indices resolve to that image — in normal mode and in
attack mode alike, never failing. -/
theorem part_pair_single_spec {Image : Type} (equipped : Equipped Image)
    (item : Item Image) (direction : Direction) (part : Slot)
    (h : equipped part = some item) :
    (∀ a b,
      normal_to_blit equipped item direction part = ImageEntry.pair a b →
        get_part_image equipped direction part 0 = some a ∧
        get_part_image equipped direction part 1 = some b) ∧
    (∀ img,
      normal_to_blit equipped item direction part
          = ImageEntry.single img →
        ∀ frame : Fin 2,
          get_part_image equipped direction part frame = some img) ∧
    (∀ s, attack_piece item = some s →
      (∀ a b, s (ImageKey.dir direction) = ImageEntry.pair a b →
        get_attack_part_image equipped direction part 0 = some a ∧
        get_attack_part_image equipped direction part 1 = some b) ∧
      (∀ img, s (ImageKey.dir direction) = ImageEntry.single img →
        ∀ frame : Fin 2,
          get_attack_part_image equipped direction part frame
            = some img)) := by
  refine ⟨fun a b he => ?_, fun img he frame => ?_, fun s hs => ?_⟩
  · rw [get_part_image_eq equipped item direction part 0 h,
      get_part_image_eq equipped item direction part 1 h, he]
    simp [indexEntry]
  · rw [get_part_image_eq equipped item direction part frame h, he]
    simp [indexEntry]
  · refine ⟨fun a b he => ?_, fun img he frame => ?_⟩
    · rw [get_attack_part_image_eq equipped item direction part 0 h,
        get_attack_part_image_eq equipped item direction part 1 h, hs]
      simp [indexEntry, he]
    · rw [get_attack_part_image_eq equipped item direction part frame h,
        hs]
      simp [indexEntry, he]

/-- Witness for C8: the shield's (3, 4) pair resolves to 3 at frame 0
and 4 at frame 1; the armleg's single image 1 resolves to 1 at both
frames. -/
theorem part_pair_single_spec_witness :
    normal_to_blit testEquipped shieldItem Direction.front Slot.shield
      = ImageEntry.pair 3 4 ∧
    get_part_image testEquipped Direction.front Slot.shield 0 = some 3 ∧
    get_part_image testEquipped Direction.front Slot.shield 1 = some 4 ∧
    get_part_image testEquipped Direction.front Slot.armleg 0 = some 1 ∧
    get_part_image testEquipped Direction.front Slot.armleg 1 = some 1 :=
  ⟨by decide,
   ((part_pair_single_spec testEquipped shieldItem Direction.front
      Slot.shield rfl).1 3 4 (by decide)).1,
   ((part_pair_single_spec testEquipped shieldItem Direction.front
      Slot.shield rfl).1 3 4 (by decide)).2,
   (part_pair_single_spec testEquipped armlegItem Direction.front
      Slot.armleg rfl).2.1 1 (by decide) 0,
   (part_pair_single_spec testEquipped armlegItem Direction.front
      Slot.armleg rfl).2.1 1 (by decide) 1⟩

/-- Counterexample for C3: with the shield equipped and facing right, the
normal-mode resolver substitutes the armleg's right-with-shield image
(2), but the attack-mode resolver — here under the `"normal"` reuse
marker — returns the plain right-direction image (1), not the
substituted one: the substitution does not happen in the attack-mode
composition. -/
theorem shield_override_attack_cex :
    (testEquipped Slot.shield).isSome = true ∧
    get_part_image testEquipped Direction.right Slot.armleg 0 = some 2 ∧
    get_attack_part_image testEquipped Direction.right Slot.armleg 0
      = some 1 ∧
    armlegItem.images ImageKey.right_with_shield = ImageEntry.single 2 ∧
    (some 1 : Option Nat) ≠ some 2 := by decide

/-- C3 amended: with a shield equipped and the direction right, the
armleg's `"right_with_shield"` image set is substituted in the
normal-mode resolution only; attack-mode resolution indexes the
direction-keyed entry of its selected piece (normal images under the
reuse marker, or the distinct attack set), with no shield
substitution. -/
theorem shield_override_normal_only {Image : Type}
    (equipped : Equipped Image) (item : Item Image) (frame : Fin 2)
    (h : equipped Slot.armleg = some item)
    (hs : (equipped Slot.shield).isSome = true) :
    get_part_image equipped Direction.right Slot.armleg frame
      = some (indexEntry (item.images ImageKey.right_with_shield)
          frame) ∧
    get_attack_part_image equipped Direction.right Slot.armleg frame
      = (attack_piece item).map
          (fun s => indexEntry (s (ImageKey.dir Direction.right))
            frame) := by
  constructor
  · simp [get_part_image, h, hs]
  · exact get_attack_part_image_eq equipped item Direction.right
      Slot.armleg frame h

/-- Witness for C3 (amended): on the concrete equipment set, normal-mode
resolution yields the substituted image 2 and attack-mode resolution
yields the unsubstituted image 1. -/
theorem shield_override_normal_only_witness :
    testEquipped Slot.armleg = some armlegItem ∧
    (testEquipped Slot.shield).isSome = true ∧
    get_part_image testEquipped Direction.right Slot.armleg 0
      = some (indexEntry (armlegItem.images ImageKey.right_with_shield)
          0) ∧
    get_attack_part_image testEquipped Direction.right Slot.armleg 0
      = (attack_piece armlegItem).map
          (fun s => indexEntry (s (ImageKey.dir Direction.right)) 0) :=
  ⟨rfl, rfl,
   (shield_override_normal_only testEquipped armlegItem 0 rfl rfl).1,
   (shield_override_normal_only testEquipped armlegItem 0 rfl rfl).2⟩

/-- Helper: `enumMap` preserves length. -/
theorem enumMap_length {α β : Type} (f : Nat → α → β) :
    ∀ (l : List α) (start : Nat), (enumMap f start l).length = l.length := by
  intro l
  induction l with
  | nil => intro start; rfl
  | cons a as ih => intro start; simp [enumMap, ih]

/-- Helper: the `i`-th element of `enumMap f start l` is `f (start + i)`
of the `i`-th element of `l`. -/
theorem enumMap_get? {α β : Type} (f : Nat → α → β) :
    ∀ (l : List α) (start i : Nat),
      (enumMap f start l).get? i = (l.get? i).map (f (start + i)) := by
  intro l
  induction l with
  | nil => intro start i; simp [enumMap]
  | cons a as ih =>
    intro start i
    cases i with
    | zero => simp [enumMap]
    | succ n =>
      have harith : start + 1 + n = start + (n + 1) := by omega
      simp only [enumMap, List.get?]
      rw [ih (start + 1) n, harith]

/-- A palette-level concrete pixel semantics: a surface is its palette
plus its colorkey; `blit` concatenates palettes, `convert8` is the
identity. -/
abbrev PalSurf : Type := List Color × Option Color

/-- The `SurfaceOps` instance for `PalSurf`. -/
def palOps : SurfaceOps PalSurf :=
  { newFilled := fun c => ([c], Option.none)
    blit := fun dst src => (dst.1 ++ src.1, dst.2)
    convert8 := fun s => s
    get_palette := fun s => s.1
    set_palette := fun s p => (p, s.2)
    set_colorkey := fun s c => (s.1, some c) }

/-- A concrete composited frame with the single palette color
(10, 20, 30). -/
def cexFrame : PalSurf := ([⟨10, 20, 30⟩], Option.none)

/-- A concrete 2-frame composited clip over `PalSurf`. -/
def cexClip : Anim PalSurf :=
  Anim.mkLooping [cexFrame, cexFrame] STANDARD_ANIMATION_FPS

/-- Counterexample for C2: the claim says frame index 0 (even) boosts
the red channel of each palette entry.  On the concrete pixel semantics
`palOps`, hit-flash frame 0 of `cexClip` has palette
[(85,0,235), (10,20,180)] — the blue channels were boosted — and not the
red-boosted [(235,0,85), (160,20,30)] the claim predicts: the code's
`(0, ...) if i else (2, ...)` selects red for nonzero (odd) indices and
blue for index 0 (even). -/
theorem hit_flash_even_red_cex :
    ((make_hit_images palOps (fun _ => cexClip)
        Direction.front).frames.get? 0).map Prod.fst
      = some [⟨85, 0, 235⟩, ⟨10, 20, 180⟩] ∧
    ((make_hit_images palOps (fun _ => cexClip)
        Direction.front).frames.get? 0).map Prod.fst
      ≠ some [⟨235, 0, 85⟩, ⟨160, 20, 30⟩] := by decide

/-- C2 amended: hit-flash frame `i` composites the input frame `i` over
an (85,0,85) background, palette-reduces it, and boosts one channel of
each palette entry by 150 clamped at 255 — the blue channel when
`i = 0` and the red channel when `i ≠ 0` (so, for the two-frame clips
composited here, blue on the even frame 0 and red on the odd frame 1) —
then keys out the correspondingly boosted background color. -/
theorem make_hit_images_frames {Image : Type} (ops : SurfaceOps Image)
    (from_dict : Direction → Anim Image) (d : Direction) (i : Nat)
    (fr : Image) (h : (from_dict d).frames.get? i = some fr) :
    (make_hit_images ops from_dict d).frames.get? i
      = some (ops.set_colorkey
          (ops.set_palette
            (ops.convert8 (ops.blit (ops.newFilled ⟨85, 0, 85⟩) fr))
            ((ops.get_palette
                (ops.convert8 (ops.blit (ops.newFilled ⟨85, 0, 85⟩)
                  fr))).map
              (fun c =>
                c.setCh (if i = 0 then 2 else 0)
                  (min (c.getCh (if i = 0 then 2 else 0) + 150) 255))))
          (if i = 0 then ⟨85, 0, 235⟩ else ⟨235, 0, 85⟩)) := by
  have hfr : (make_hit_images ops from_dict d).frames
      = enumMap (make_hit_frame ops) 0 (from_dict d).frames := rfl
  rw [hfr, enumMap_get? (make_hit_frame ops) (from_dict d).frames 0 i, h]
  by_cases hi : i = 0 <;> simp [make_hit_frame, hi]

/-- Witness for C2 (amended): hit-flash frame 0 of the concrete clip is
the blue-boosted palette with the (85,0,235) colorkey. -/
theorem make_hit_images_frames_witness :
    cexClip.frames.get? 0 = some cexFrame ∧
    (make_hit_images palOps (fun _ => cexClip)
        Direction.front).frames.get? 0
      = some (palOps.set_colorkey
          (palOps.set_palette
            (palOps.convert8 (palOps.blit (palOps.newFilled ⟨85, 0, 85⟩)
              cexFrame))
            ((palOps.get_palette
                (palOps.convert8 (palOps.blit
                  (palOps.newFilled ⟨85, 0, 85⟩) cexFrame))).map
              (fun c =>
                c.setCh (if (0 : Nat) = 0 then 2 else 0)
                  (min (c.getCh (if (0 : Nat) = 0 then 2 else 0) + 150)
                    255))))
          (if (0 : Nat) = 0 then ⟨85, 0, 235⟩ else ⟨235, 0, 85⟩)) :=
  ⟨rfl,
   make_hit_images_frames palOps (fun _ => cexClip) Direction.front 0
     cexFrame rfl⟩

/-- C9: hit-flash clips are finite — loop budget 10 — and play at
`HIT_ANIMATION_FPS` (20), standard composited clips loop unbounded at
`STANDARD_ANIMATION_FPS` (7 < 20); a finished clip keeps reporting done
through further queries, and `reset` rewinds it to frame 0 with a fresh
loop counter and clears done. -/
theorem hit_clip_finite_fast {Image : Type} (ops : SurfaceOps Image)
    (base : Image) (equipped : Equipped Image)
    (from_dict : Direction → Anim Image) (d d2 : Direction)
    (attack : Bool) (order : Direction → List Slot) (a : Anim Image)
    (now : ℚ) :
    (make_hit_images ops from_dict d).loops = some 10 ∧
    (make_hit_images ops from_dict d).fps = HIT_ANIMATION_FPS ∧
    (make_images ops base equipped attack order d2).loops
      = Option.none ∧
    (make_images ops base equipped attack order d2).fps
      = STANDARD_ANIMATION_FPS ∧
    STANDARD_ANIMATION_FPS < HIT_ANIMATION_FPS ∧
    (a.done = true → (a.get_next_frame now).2.done = true) ∧
    a.reset.done = false ∧ a.reset.frame = 0 ∧ a.reset.loopCount = 0 := by
  refine ⟨rfl, rfl, rfl, rfl,
    by norm_num [STANDARD_ANIMATION_FPS, HIT_ANIMATION_FPS],
    fun hd => ?_, rfl, rfl, rfl⟩
  obtain ⟨frames, fps, loops, frame, timer, loopCount, done⟩ := a
  simp only at hd
  subst hd
  cases timer <;> cases loops <;>
    simp [Anim.get_next_frame, apply_ite (f := Prod.snd),
      apply_ite (f := Anim.done)]

/-- A finished finite clip (loop budget exhausted). -/
def doneAnim : Anim PalSurf :=
  ⟨[cexFrame, cexFrame], 20, some 10, 0, Option.none, 10, true⟩

/-- Witness for C9: a finished clip still reports done after another
query at time 0. -/
theorem hit_clip_finite_fast_witness :
    doneAnim.done = true ∧
    (doneAnim.get_next_frame 0).2.done = true ∧
    (make_hit_images palOps (fun _ => cexClip)
        Direction.front).loops = some 10 :=
  ⟨rfl,
   (hit_clip_finite_fast palOps ([], Option.none) (fun _ => Option.none)
      (fun _ => cexClip) Direction.front Direction.front false DRAW_ORDER
      doneAnim 0).2.2.2.2.2.1 rfl,
   (hit_clip_finite_fast palOps ([], Option.none) (fun _ => Option.none)
      (fun _ => cexClip) Direction.front Direction.front false DRAW_ORDER
      doneAnim 0).1⟩
